import Mathlib

/-!
Verification development for the boids compute/update subsystem of the
learn-wgpu repository (src/boids.rs, src/point_cloud.rs, src/instance.rs,
src/model.rs).

Modelling conventions:
* f32 scalars that stay within exact arithmetic are idealized as rationals;
  the instance-projector path, where IEEE special values matter, uses an
  explicit `F32` type tracking NaN and the infinities; the point-cloud
  trigonometry is idealized over the reals.
* GPU buffers are Lean lists; wgpu buffer and bind-group objects are named
  by small enumeration types, and command encoding is a Lean list of
  commands in the order the Rust code records them.
* The `gen::<f32>()` stream of `rand::thread_rng` (uniform on [0,1)) is
  modelled as a function from a draw counter to a rational.
-/

namespace LearnWgpu

/-- A 4-component vector of rationals (idealized f32x4). -/
structure Vec4 where
  x : ℚ
  y : ℚ
  z : ℚ
  w : ℚ
deriving DecidableEq

/-- src/boids.rs `Boid`: `pos: [f32; 4], vel: [f32; 4]`. -/
structure Boid where
  pos : Vec4
  vel : Vec4
deriving DecidableEq

instance : Inhabited Boid := ⟨⟨⟨0, 0, 0, 1⟩, ⟨0, 0, 0, 0⟩⟩⟩

/-- src/point_cloud.rs `Point`: `pos: [f32; 4]`. -/
structure Point where
  pos : Vec4
deriving DecidableEq

/-- src/boids.rs lines 93-103: one coordinate draw,
`(rng.gen::<f32>() - 0.5) * 5.0`. -/
def genCoord (u : ℚ) : ℚ := (u - 1/2) * 5

/-- src/boids.rs lines 92-105: one `Boid` built from six successive draws of
the rng stream starting at draw index `base` (pos x,y,z then vel x,y,z; the
w components are the literals 1.0 and 0.0). -/
def genBoid (rng : ℕ → ℚ) (base : ℕ) : Boid :=
  { pos := ⟨genCoord (rng base), genCoord (rng (base + 1)),
            genCoord (rng (base + 2)), 1⟩
    vel := ⟨genCoord (rng (base + 3)), genCoord (rng (base + 4)),
            genCoord (rng (base + 5)), 0⟩ }

/-- src/boids.rs lines 92-107: the generated agent list,
`std::iter::repeat_with(|| Boid { .. }).take(num_instances).collect()`;
agent i consumes draws 6*i .. 6*i+5 of the rng stream. -/
def genBoids (rng : ℕ → ℚ) (num_instances : ℕ) : List Boid :=
  (List.range num_instances).map fun i => genBoid rng (6 * i)

/-- src/boids.rs lines 108-111: `boid_buffer1` and `boid_buffer2` are both
created with `bytemuck::cast_slice(&boids)`, i.e. from the same agent list. -/
def create_boid_buffers (rng : ℕ → ℚ) (num_instances : ℕ) :
    List Boid × List Boid :=
  (genBoids rng num_instances, genBoids rng num_instances)

/-- src/boids.rs `ComputeUniforms`: `{ triangle_count: u32, sample_cout: u32,
delta: f32 }` (field names as in the source, typo included). -/
structure ComputeUniforms where
  triangle_count : ℕ
  sample_cout : ℕ
  delta : ℚ
deriving DecidableEq

/-- The byte size `std::mem::size_of::<ComputeUniforms>()`: 12 (u32, u32, f32). -/
def computeUniformsSize : ℕ := 12

/-- The wgpu buffers owned by or bound in the boids subsystem
(src/boids.rs fields and `create_boids` locals). -/
inductive BufferId
  | boidVertexBuf
  | boidIndexBuf
  | instanceBuf
  | boidBuf1
  | boidBuf2
  | computeUniformBuf
  | stagingBuf
  | sceneIndicesBuf
  | sceneVerticesBuf
  | samplePointsBuf
  | pointCloudVertexBuf
  | meshVertexBuf
  | meshIndexBuf
deriving DecidableEq

/-- The bind groups appearing in the modelled draw/dispatch paths. -/
inductive BindGroupId
  | boidGroup1
  | boidGroup2
  | computeSceneGroup
  | computeUniformGroup
  | cameraUniforms
  | materialGroup
deriving DecidableEq

/-- src/boids.rs lines 156-169: `boid_bind_group1` binds `boid_buffer1` at
binding 0 (kernel read source) and `boid_buffer2` at binding 1 (kernel write
target). -/
def boidGroup1Buffers : List (ℕ × BufferId) :=
  [(0, .boidBuf1), (1, .boidBuf2)]

/-- src/boids.rs lines 170-183: `boid_bind_group2` binds `boid_buffer2` at
binding 0 (read) and `boid_buffer1` at binding 1 (write). -/
def boidGroup2Buffers : List (ℕ × BufferId) :=
  [(0, .boidBuf2), (1, .boidBuf1)]

/-- src/boids.rs lines 227-248: `compute_scene_bind_group` binds the instance
buffer (binding 0, read-write), scene indices (1), scene vertices (2) and the
point-cloud sample points (3). -/
def computeSceneBindGroupBuffers : List (ℕ × BufferId) :=
  [(0, .instanceBuf), (1, .sceneIndicesBuf),
   (2, .sceneVerticesBuf), (3, .samplePointsBuf)]

/-- The mutable CPU-side state of src/boids.rs `Boids` that the modelled
operations touch (buffer objects themselves are named by `BufferId`). -/
structure Boids where
  num_instances : ℕ
  num_indices : ℕ
  boid_buffer_index : Bool
  compute_uniforms : ComputeUniforms
deriving DecidableEq

/-- src/boids.rs lines 250-305 (`create_boids` result): the uniform block is
`{ triangle_count: scene_index_count / 3, sample_cout: sample_count,
delta: 0.0 }` and `boid_buffer_index` starts `false`. -/
def Boids.createState (num_instances scene_index_count sample_count
    num_indices : ℕ) : Boids :=
  { num_instances
    num_indices
    boid_buffer_index := false
    compute_uniforms :=
      { triangle_count := scene_index_count / 3
        sample_cout := sample_count
        delta := 0 } }

/-- Commands recorded on the compute command encoder in `Boids::update`. -/
inductive Cmd
  | copyBufferToBuffer (src dst : BufferId)
      (srcOffset dstOffset size : ℕ)
  | beginComputePass
  | setPipeline
  | setComputeBindGroup (slot : ℕ) (g : BindGroupId)
  | dispatch (x y z : ℕ)
  | endComputePass
deriving DecidableEq

/-- src/boids.rs lines 312-316: the staging buffer is created from the
uniform block after `self.compute_uniforms.delta = delta`, so it carries the
new delta alongside the unchanged counts. -/
def stagedUniforms (s : Boids) (delta : ℚ) : ComputeUniforms :=
  { s.compute_uniforms with delta := delta }

/-- src/boids.rs lines 311-340, `Boids::update`: sets the uniform delta,
stages it, encodes the staging-to-uniform-buffer copy, then a compute pass
that selects the bind group by the pre-toggle parity (line 332), toggles
`boid_buffer_index` (line 333), binds scene and uniform groups and dispatches
`num_instances` work groups.  Returns the finished command buffer (the command
list, in recording order) and the post-call state. -/
def Boids.update (s : Boids) (delta : ℚ) : List Cmd × Boids :=
  ([Cmd.copyBufferToBuffer .stagingBuf .computeUniformBuf 0 0
      computeUniformsSize,
    Cmd.beginComputePass,
    Cmd.setPipeline,
    Cmd.setComputeBindGroup 0
      (if s.boid_buffer_index then .boidGroup2 else .boidGroup1),
    Cmd.setComputeBindGroup 1 .computeSceneGroup,
    Cmd.setComputeBindGroup 2 .computeUniformGroup,
    Cmd.dispatch s.num_instances 1 1,
    Cmd.endComputePass],
   { s with
      boid_buffer_index := !s.boid_buffer_index
      compute_uniforms := stagedUniforms s delta })

/-- Iterating `Boids::update` over a list of per-tick deltas, keeping only
the state (the command buffers are submitted and dropped). -/
def Boids.applyUpdates (s : Boids) (deltas : List ℚ) : Boids :=
  deltas.foldl (fun st d => (Boids.update st d).2) s

/-- Recognizes the copy into the compute uniform buffer. -/
def isUniformCopy : Cmd → Bool
  | .copyBufferToBuffer _ .computeUniformBuf _ _ _ => true
  | _ => false

/-- Recognizes the compute dispatch. -/
def isDispatch : Cmd → Bool
  | .dispatch _ _ _ => true
  | _ => false

/-- Modelled from the spec: the compute kernel (shaders/boids.comp, dispatched
at src/boids.rs line 336 but whose GLSL source is not part of src/).  Per
spec sections 4.2 and 5 it is one unit of work per agent, "fully data-parallel
— no unit depends on the output of any other unit within the same tick (each
reads only from the frozen read-buffer)" and each unit writes exactly its own agent
record in the write buffer.  The per-unit body is an arbitrary pure function
`kernel` of the frozen read buffer, the scene index/vertex buffers, the
point-cloud samples, the uniform block and its own unit index; `order` is
the order in which the device happens to retire the parallel invocations. -/
def dispatchBoids
    (kernel : List Boid → List ℕ → List Point → List Point →
      ComputeUniforms → ℕ → Boid)
    (readBuf writeBuf : List Boid)
    (sceneIndices : List ℕ) (sceneVertices samplePoints : List Point)
    (uni : ComputeUniforms) (order : List ℕ) : List Boid :=
  order.foldl
    (fun w i =>
      w.set i (kernel readBuf sceneIndices sceneVertices samplePoints uni i))
    writeBuf

/-- Commands recorded on a render pass in the modelled draw helpers. -/
inductive RenderCmd
  | setIndexBuffer (b : BufferId)
  | setVertexBuffer (slot : ℕ) (b : BufferId)
  | setBindGroup (slot : ℕ) (g : BindGroupId)
  | drawIndexed (firstIndex endIndex : ℕ) (baseVertex : ℤ)
      (firstInstance endInstance : ℕ)
  | draw (firstVertex endVertex firstInstance endInstance : ℕ)
deriving DecidableEq

/-- src/boids.rs lines 416-427, `draw_boids_instanced`: index buffer, the
boid mesh vertices at slot 0, the instance buffer at slot 1, the caller-supplied
uniforms bind group at index 0, then the indexed draw over `instances` (a
Rust `Range<u32>`, modelled as a start/stop pair). -/
def draw_boids_instanced (boids : Boids) (instances : ℕ × ℕ)
    (uniforms : BindGroupId) : List RenderCmd :=
  [RenderCmd.setIndexBuffer .boidIndexBuf,
   RenderCmd.setVertexBuffer 0 .boidVertexBuf,
   RenderCmd.setVertexBuffer 1 .instanceBuf,
   RenderCmd.setBindGroup 0 uniforms,
   RenderCmd.drawIndexed 0 boids.num_indices 0 instances.1 instances.2]

/-- src/boids.rs lines 413-415, `draw_boids`:
`self.draw_boids_instanced(boids, 0..1, uniforms)`. -/
def draw_boids (boids : Boids) (uniforms : BindGroupId) : List RenderCmd :=
  draw_boids_instanced boids (0, 1) uniforms

/-- src/point_cloud.rs `PointCloud` (the fields the draw path reads). -/
structure PointCloud where
  num_vertices : ℕ
deriving DecidableEq

/-- src/point_cloud.rs lines 143-154, `draw_point_cloud_instanced`. -/
def draw_point_cloud_instanced (point_cloud : PointCloud)
    (instance_buffer : BufferId) (instances : ℕ × ℕ)
    (uniforms : BindGroupId) : List RenderCmd :=
  [RenderCmd.setVertexBuffer 0 .pointCloudVertexBuf,
   RenderCmd.setVertexBuffer 1 instance_buffer,
   RenderCmd.setBindGroup 0 uniforms,
   RenderCmd.draw 0 point_cloud.num_vertices instances.1 instances.2]

/-- src/point_cloud.rs lines 140-142, `draw_point_cloud`:
delegates to the instanced version with `0..1`. -/
def draw_point_cloud (point_cloud : PointCloud) (instance_buffer : BufferId)
    (uniforms : BindGroupId) : List RenderCmd :=
  draw_point_cloud_instanced point_cloud instance_buffer (0, 1) uniforms

/-- src/model.rs `Mesh` (the fields the draw path reads). -/
structure Mesh where
  num_elements : ℕ
deriving DecidableEq

/-- src/model.rs `Material` (the field the draw path reads). -/
structure Material where
  bind_group : BindGroupId
deriving DecidableEq

/-- src/model.rs lines 157-169, `draw_mesh_instanced`. -/
def draw_mesh_instanced (mesh : Mesh) (material : Material)
    (instances : ℕ × ℕ) (uniforms : BindGroupId) : List RenderCmd :=
  [RenderCmd.setVertexBuffer 0 .meshVertexBuf,
   RenderCmd.setIndexBuffer .meshIndexBuf,
   RenderCmd.setBindGroup 0 material.bind_group,
   RenderCmd.setBindGroup 1 uniforms,
   RenderCmd.drawIndexed 0 mesh.num_elements 0 instances.1 instances.2]

/-- src/model.rs lines 154-156, `draw_mesh`:
delegates to the instanced version with `0..1`. -/
def draw_mesh (mesh : Mesh) (material : Material)
    (uniforms : BindGroupId) : List RenderCmd :=
  draw_mesh_instanced mesh material (0, 1) uniforms

/-- The first buffer bound with `set_vertex_buffer` at the given slot in a
recorded command list. -/
def boundVertexBuffer (slot : ℕ) : List RenderCmd → Option BufferId
  | [] => none
  | .setVertexBuffer s b :: rest =>
      if s = slot then some b else boundVertexBuffer slot rest
  | _ :: rest => boundVertexBuffer slot rest

/-- Whether a render command references the given buffer. -/
def usesBuffer (b : BufferId) : RenderCmd → Bool
  | .setIndexBuffer c => b = c
  | .setVertexBuffer _ c => b = c
  | _ => false

/-- The agent buffer written by the tick whose pre-toggle parity flag is
`preFlag`: with the flag false, `boid_bind_group1` is bound (src/boids.rs
line 332), whose binding 1 — the kernel write target — is `boid_buffer2`
(lines 156-169); with the flag true the roles are swapped. -/
def writeBufferOfTick (preFlag : Bool) : BufferId :=
  if preFlag then .boidBuf1 else .boidBuf2

/-- The agent buffer most recently written, as a function of the post-toggle
parity flag (the flag is toggled once per `update`, so the last tick ran with
pre-toggle flag `!flag`). -/
def lastCompletedAgentBuffer (flag : Bool) : BufferId :=
  writeBufferOfTick (!flag)

/-! ### f32 with IEEE special values

The instance-projector path of `Boids::create_boids` (src/boids.rs lines
113-126) normalizes a possibly-zero velocity, so NaN and infinity semantics
matter there.  `F32` carries an exact rational for finite values (f32
rounding is immaterial on the paths evaluated below, where every finite
intermediate is exactly representable) plus the two infinities and NaN.
Negative zero is not distinguished from zero; no evaluated path depends on
the sign of a zero. -/

inductive F32
  | num (q : ℚ)
  | inf
  | neginf
  | nan
deriving DecidableEq

namespace F32

/-- IEEE f32 addition on the modelled values. -/
def add : F32 → F32 → F32
  | nan, _ => nan
  | _, nan => nan
  | num a, num b => num (a + b)
  | num _, inf => inf
  | inf, num _ => inf
  | num _, neginf => neginf
  | neginf, num _ => neginf
  | inf, inf => inf
  | neginf, neginf => neginf
  | inf, neginf => nan
  | neginf, inf => nan

/-- IEEE f32 negation on the modelled values. -/
def neg : F32 → F32
  | num a => num (-a)
  | inf => neginf
  | neginf => inf
  | nan => nan

/-- IEEE f32 subtraction on the modelled values. -/
def sub (a b : F32) : F32 := add a (neg b)

/-- IEEE f32 multiplication on the modelled values; in particular
`0 * inf = nan`. -/
def mul : F32 → F32 → F32
  | nan, _ => nan
  | _, nan => nan
  | num a, num b => num (a * b)
  | num a, inf => if a = 0 then nan else if 0 < a then inf else neginf
  | inf, num a => if a = 0 then nan else if 0 < a then inf else neginf
  | num a, neginf => if a = 0 then nan else if 0 < a then neginf else inf
  | neginf, num a => if a = 0 then nan else if 0 < a then neginf else inf
  | inf, inf => inf
  | neginf, neginf => inf
  | inf, neginf => neginf
  | neginf, inf => neginf

/-- IEEE f32 division on the modelled values; in particular
`1 / 0 = inf` and `0 / 0 = nan`. -/
def div : F32 → F32 → F32
  | nan, _ => nan
  | _, nan => nan
  | num a, num b =>
      if b = 0 then (if a = 0 then nan else if 0 < a then inf else neginf)
      else num (a / b)
  | num _, inf => num 0
  | num _, neginf => num 0
  | inf, num b => if 0 ≤ b then inf else neginf
  | neginf, num b => if 0 ≤ b then neginf else inf
  | inf, inf => nan
  | inf, neginf => nan
  | neginf, inf => nan
  | neginf, neginf => nan

/-- Floor square root of a natural number (the count of k ≤ n with k*k ≤ n,
minus one), written without well-founded recursion so that the kernel can
evaluate it inside `decide`. -/
def natFloorSqrt (n : ℕ) : ℕ :=
  ((List.range (n + 1)).countP fun k => k * k ≤ n) - 1

/-- Rational square root, exact on rationals that are squares of rationals
(each sqrt argument reached on the evaluated paths below — 0 and 1 — is such
a square; f32 sqrt rounds to nearest on other inputs). -/
def ratSqrt (q : ℚ) : ℚ := (natFloorSqrt q.num.toNat : ℚ) / (natFloorSqrt q.den : ℚ)

/-- IEEE f32 square root on the modelled values: NaN on negative or NaN
input. -/
def sqrt : F32 → F32
  | num a => if a < 0 then nan else num (ratSqrt a)
  | inf => inf
  | neginf => nan
  | nan => nan

/-- The cgmath `ulps_eq!` approximate comparison, modelled as exact equality on
finite values (the ulps tolerance is collapsed; every comparison on the
evaluated paths is either exact or has a NaN operand).  NaN compares unequal
to everything, matching IEEE. -/
def approxEq : F32 → F32 → Bool
  | num a, num b => a = b
  | inf, inf => true
  | neginf, neginf => true
  | _, _ => false

end F32

/-- A 3-component vector of modelled f32 values (cgmath `Vector3<f32>`). -/
structure Vec3F where
  x : F32
  y : F32
  z : F32
deriving DecidableEq

namespace Vec3F

/-- cgmath `Vector3::unit_x()`. -/
def unitX : Vec3F := ⟨.num 1, .num 0, .num 0⟩

/-- cgmath `Vector3::unit_y()`. -/
def unitY : Vec3F := ⟨.num 0, .num 1, .num 0⟩

/-- cgmath `InnerSpace::dot` for `Vector3`. -/
def dot (a b : Vec3F) : F32 :=
  F32.add (F32.add (F32.mul a.x b.x) (F32.mul a.y b.y)) (F32.mul a.z b.z)

/-- cgmath `InnerSpace::magnitude2`: `dot(self, self)`. -/
def magnitude2 (v : Vec3F) : F32 := dot v v

/-- cgmath `Vector3::cross`. -/
def cross (a b : Vec3F) : Vec3F :=
  ⟨F32.sub (F32.mul a.y b.z) (F32.mul a.z b.y),
   F32.sub (F32.mul a.z b.x) (F32.mul a.x b.z),
   F32.sub (F32.mul a.x b.y) (F32.mul a.y b.x)⟩

/-- Component-by-scalar product, `self * scalar`. -/
def scale (v : Vec3F) (s : F32) : Vec3F :=
  ⟨F32.mul v.x s, F32.mul v.y s, F32.mul v.z s⟩

/-- cgmath `InnerSpace::normalize`:
`self.normalize_to(1) = self * (1 / self.magnitude())` where `magnitude` is
`sqrt(magnitude2)`.  On the zero vector this computes `0 * (1/0) = 0 * inf`,
i.e. NaN in every component — there is no zero special case. -/
def normalize (v : Vec3F) : Vec3F :=
  scale v (F32.div (.num 1) (F32.sqrt (magnitude2 v)))

/-- Componentwise `ulps_eq!` against the zero vector. -/
def approxZero (v : Vec3F) : Bool :=
  F32.approxEq v.x (.num 0) && F32.approxEq v.y (.num 0) &&
    F32.approxEq v.z (.num 0)

end Vec3F

/-- cgmath `Quaternion<f32>`: scalar part `s` and vector part `v`. -/
structure QuatF where
  s : F32
  v : Vec3F
deriving DecidableEq

namespace QuatF

/-- cgmath `Quaternion::one()`, the identity rotation. -/
def one : QuatF := ⟨.num 1, ⟨.num 0, .num 0, .num 0⟩⟩

/-- cgmath `Quaternion::from_sv`. -/
def from_sv (s : F32) (v : Vec3F) : QuatF := ⟨s, v⟩

/-- cgmath `InnerSpace::magnitude2` for quaternions. -/
def magnitude2 (q : QuatF) : F32 :=
  F32.add (F32.mul q.s q.s) (Vec3F.magnitude2 q.v)

/-- cgmath `InnerSpace::normalize` for quaternions:
`self * (1 / self.magnitude())`. -/
def normalize (q : QuatF) : QuatF :=
  let inv := F32.div (.num 1) (F32.sqrt (magnitude2 q))
  ⟨F32.mul q.s inv, Vec3F.scale q.v inv⟩

/-- cgmath `Quaternion::from_axis_angle(axis, Rad::turn_div_2())`, the
half-turn case reached only on the antiparallel branch of `from_arc`: the
half-angle sine and cosine are the idealized exact values 1 and 0 (f32
evaluates them to within one ulp; no claim below depends on this branch). -/
def fromAxisAngleHalfTurn (axis : Vec3F) : QuatF :=
  ⟨.num 0, Vec3F.scale axis (.num 1)⟩

/-- cgmath `Quaternion::from_arc(src, dst, fallback)` (cgmath 0.17): compare
`dot(src, dst)` against `±sqrt(mag2 src * mag2 dst)` with `ulps_eq!`; return
the identity when parallel, a half-turn about a fallback/perpendicular axis
when antiparallel, and otherwise the normalized quaternion
`from_sv(mag_avg + dot, cross(src, dst))`.  With a NaN `dst` both guards are
false (NaN compares unequal) and the general branch propagates NaN. -/
def from_arc (src dst : Vec3F) (fallback : Option Vec3F) : QuatF :=
  let mag_avg :=
    F32.sqrt (F32.mul (Vec3F.magnitude2 src) (Vec3F.magnitude2 dst))
  let d := Vec3F.dot src dst
  if F32.approxEq d mag_avg then one
  else if F32.approxEq d (F32.neg mag_avg) then
    let axis :=
      fallback.getD
        (let v := Vec3F.cross src Vec3F.unitX
         Vec3F.normalize
           (if Vec3F.approxZero v then Vec3F.cross src Vec3F.unitY else v))
    fromAxisAngleHalfTurn axis
  else normalize (from_sv (F32.add mag_avg d) (Vec3F.cross src dst))

end QuatF

/-- The xyz part of an idealized rational `Vec4`, injected into the
NaN-tracking f32 model (`cgmath::vec3(v[0], v[1], v[2])`). -/
def toVec3F (v : Vec4) : Vec3F := ⟨.num v.x, .num v.y, .num v.z⟩

/-- src/boids.rs lines 116-123, the per-agent instance rotation:
`Quaternion::from_arc(Vector3::unit_x(), vec3(vel).normalize(), None)` —
the velocity is normalized unconditionally, with no zero-velocity branch. -/
def boidInstanceRotation (b : Boid) : QuatF :=
  QuatF.from_arc Vec3F.unitX (Vec3F.normalize (toVec3F b.vel)) none

/-- A boid whose velocity is the zero vector (position arbitrary). -/
def zeroVelBoid : Boid := ⟨⟨0, 0, 0, 1⟩, ⟨0, 0, 0, 0⟩⟩

/-! ### Point-cloud sphere generation

src/point_cloud.rs lines 14-46, `PointCloud::new_sphere`.  The f32
trigonometry is idealized over the reals (the 1e-5 tolerance of the claim absorbs
f32 rounding; the idealized points lie exactly on the unit sphere). -/

/-- src/point_cloud.rs lines 17-19: the polar angle of sample `i` of
`samples`, `acos(1 - 2*i/samples)`. -/
noncomputable def spherePhi (samples i : ℕ) : ℝ :=
  Real.arccos (1 - 2 * i / samples)

/-- src/point_cloud.rs lines 20-23: the azimuth of sample `i`,
`PI * (1 + sqrt 5) * i`. -/
noncomputable def sphereTheta (i : ℕ) : ℝ :=
  Real.pi * (1 + Real.sqrt 5) * i

/-- src/point_cloud.rs lines 25-35: the generated vertex for sample `i`,
`[cos phi, sin theta * sin phi, cos theta * sin phi, 1.0]`. -/
noncomputable def spherePointPos (samples i : ℕ) : ℝ × ℝ × ℝ × ℝ :=
  (Real.cos (spherePhi samples i),
   Real.sin (sphereTheta i) * Real.sin (spherePhi samples i),
   Real.cos (sphereTheta i) * Real.sin (spherePhi samples i),
   1)

/-- src/point_cloud.rs lines 15-35: the vertex list of
`PointCloud::new_sphere(device, samples)`, one vertex per index in
`0..samples`. -/
noncomputable def new_sphere_vertices (samples : ℕ) : List (ℝ × ℝ × ℝ × ℝ) :=
  (List.range samples).map (spherePointPos samples)

/-- Euclidean distance of the xyz part of a generated vertex from the origin. -/
noncomputable def sphereVertexDist (p : ℝ × ℝ × ℝ × ℝ) : ℝ :=
  Real.sqrt (p.1 ^ 2 + p.2.1 ^ 2 + p.2.2.1 ^ 2)

/-! ## Theorems -/

theorem natFloorSqrt_zero : F32.natFloorSqrt 0 = 0 := rfl

theorem natFloorSqrt_one : F32.natFloorSqrt 1 = 1 := rfl

theorem ratSqrt_zero : F32.ratSqrt 0 = 0 := by
  norm_num [F32.ratSqrt, natFloorSqrt_zero, natFloorSqrt_one]

/-- Flag evolution under iterated updates: each `Boids::update` toggles the
parity flag exactly once. -/
theorem applyUpdates_flag (s : Boids) (deltas : List ℚ) :
    (Boids.applyUpdates s deltas).boid_buffer_index
      = Bool.xor s.boid_buffer_index (decide (deltas.length % 2 = 1)) := by
  induction deltas generalizing s with
  | nil => simp [Boids.applyUpdates]
  | cons d ds ih =>
      have step : Boids.applyUpdates s (d :: ds)
          = Boids.applyUpdates (Boids.update s d).2 ds := rfl
      rw [step, ih]
      have hflag : (Boids.update s d).2.boid_buffer_index
          = !s.boid_buffer_index := rfl
      rw [hflag]
      rcases Nat.even_or_odd ds.length with h | h
      · have h0 : ds.length % 2 = 0 := Nat.even_iff.mp h
        have h1 : (d :: ds).length % 2 = 1 := by
          simp [List.length_cons, Nat.add_mod, h0]
        rw [h0, h1]
        cases s.boid_buffer_index <;> rfl
      · have h1 : ds.length % 2 = 1 := Nat.odd_iff.mp h
        have h0 : (d :: ds).length % 2 = 0 := by
          simp [List.length_cons, Nat.add_mod, h1]
        rw [h1, h0]
        cases s.boid_buffer_index <;> rfl

/-- C2: each call to `Boids::update` toggles `boid_buffer_index` exactly once
and unconditionally, so after any sequence of calls the flag equals the
starting flag XOR (number of calls mod 2); at construction the flag is false.
(src/boids.rs lines 296, 333.) -/
theorem boid_buffer_index_alternates
    (num_instances scene_index_count sample_count num_indices : ℕ)
    (s : Boids) (deltas : List ℚ) :
    (Boids.createState num_instances scene_index_count sample_count
        num_indices).boid_buffer_index = false
    ∧ (Boids.applyUpdates s deltas).boid_buffer_index
        = Bool.xor s.boid_buffer_index (decide (deltas.length % 2 = 1))
    ∧ (Boids.update s 0).2.boid_buffer_index = !s.boid_buffer_index :=
  ⟨rfl, applyUpdates_flag s deltas, rfl⟩

/-- The two count fields of the uniform block survive any run of updates. -/
theorem applyUpdates_uniform_counts (s : Boids) (deltas : List ℚ) :
    (Boids.applyUpdates s deltas).compute_uniforms.triangle_count
        = s.compute_uniforms.triangle_count
    ∧ (Boids.applyUpdates s deltas).compute_uniforms.sample_cout
        = s.compute_uniforms.sample_cout := by
  induction deltas generalizing s with
  | nil => exact ⟨rfl, rfl⟩
  | cons d ds ih =>
      have step : Boids.applyUpdates s (d :: ds)
          = Boids.applyUpdates (Boids.update s d).2 ds := rfl
      rw [step]
      exact ⟨(ih _).1.trans rfl, (ih _).2.trans rfl⟩

/-- C7: the `triangle_count` field of the uniform block is `scene_index_count / 3` and
its `sample_cout` is the construction-time sample count after any sequence of
updates, and a single `Boids::update` changes only the `delta` field of the
uniform block (src/boids.rs lines 250-254, 312). -/
theorem compute_uniforms_counts_invariant
    (num_instances scene_index_count sample_count num_indices : ℕ)
    (deltas : List ℚ) (s : Boids) (d : ℚ) :
    (Boids.applyUpdates
        (Boids.createState num_instances scene_index_count sample_count
          num_indices) deltas).compute_uniforms.triangle_count
        = scene_index_count / 3
    ∧ (Boids.applyUpdates
        (Boids.createState num_instances scene_index_count sample_count
          num_indices) deltas).compute_uniforms.sample_cout
        = sample_count
    ∧ (Boids.update s d).2.compute_uniforms.triangle_count
        = s.compute_uniforms.triangle_count
    ∧ (Boids.update s d).2.compute_uniforms.sample_cout
        = s.compute_uniforms.sample_cout
    ∧ (Boids.update s d).2.compute_uniforms.delta = d :=
  ⟨(applyUpdates_uniform_counts _ deltas).1,
   (applyUpdates_uniform_counts _ deltas).2, rfl, rfl, rfl⟩

/-- C8: in the command buffer returned by `Boids::update`, the copy of the
staged uniform block into the compute uniform buffer is recorded strictly
before the compute dispatch (and each occurs exactly once in that single
submission); the staged block carries the new delta of the tick
(src/boids.rs lines 312-336). -/
theorem uniform_copy_before_dispatch (s : Boids) (d : ℚ) :
    (Boids.update s d).1.findIdx isUniformCopy
        < (Boids.update s d).1.findIdx isDispatch
    ∧ (Boids.update s d).1.findIdx isDispatch < (Boids.update s d).1.length
    ∧ (Boids.update s d).1.countP isUniformCopy = 1
    ∧ (Boids.update s d).1.countP isDispatch = 1
    ∧ ((Boids.update s d).1.findIdx isUniformCopy < (Boids.update s d).1.length
        ∧ (Boids.update s d).1[(Boids.update s d).1.findIdx isUniformCopy]?
          = some (Cmd.copyBufferToBuffer .stagingBuf .computeUniformBuf 0 0
              computeUniformsSize))
    ∧ (stagedUniforms s d).delta = d :=
  ⟨of_decide_eq_true rfl, of_decide_eq_true rfl, rfl, rfl,
   ⟨of_decide_eq_true rfl, rfl⟩, rfl⟩

/-- C4: the boid-generation part of `Boids::create_boids` builds one agent
list of length `num_instances` and creates both storage buffers from that
same list, so the two initial buffers have length N and identical contents
(src/boids.rs lines 92-111). -/
theorem create_boids_buffers_identical (rng : ℕ → ℚ) (n : ℕ) :
    (create_boid_buffers rng n).1.length = n
    ∧ (create_boid_buffers rng n).2.length = n
    ∧ (create_boid_buffers rng n).1 = (create_boid_buffers rng n).2 := by
  refine ⟨?_, ?_, rfl⟩ <;> simp [create_boid_buffers, genBoids]

/-- C1: the write-buffer contents of the simulation step are a function of the
read buffer, scene data, point cloud and uniform block alone — running the
per-agent kernel invocations in any two execution orders that are
permutations of each other (in particular, any two schedulings of the
dispatch grid) produces bit-for-bit identical write buffers, because each
invocation reads only the frozen read buffer and writes only its own agent
slot. -/
theorem dispatch_order_independent
    (kernel : List Boid → List ℕ → List Point → List Point →
      ComputeUniforms → ℕ → Boid)
    (readBuf writeBuf : List Boid) (sceneIndices : List ℕ)
    (sceneVertices samplePoints : List Point) (uni : ComputeUniforms)
    (order₁ order₂ : List ℕ) (h : order₁.Perm order₂) :
    dispatchBoids kernel readBuf writeBuf sceneIndices sceneVertices
        samplePoints uni order₁
      = dispatchBoids kernel readBuf writeBuf sceneIndices sceneVertices
        samplePoints uni order₂ := by
  unfold dispatchBoids
  refine h.foldl_eq' (fun i _ j _ w => ?_) writeBuf
  by_cases hij : i = j
  · subst hij; rfl
  · exact List.set_comm _ _ w hij

/-- Witness for C1 at a concrete input: the two orders [0, 1] and [1, 0] of a
two-agent dispatch are permutations and give the same write buffer. -/
theorem dispatch_order_independent_witness :
    ([0, 1] : List ℕ).Perm [1, 0]
    ∧ dispatchBoids (fun r _ _ _ u i => ⟨(r.getD i default).pos, u.delta, 0, 0, 0⟩)
        [default, zeroVelBoid] [default, zeroVelBoid] [0] [] []
        ⟨2, 10, 1⟩ [0, 1]
      = dispatchBoids (fun r _ _ _ u i => ⟨(r.getD i default).pos, u.delta, 0, 0, 0⟩)
        [default, zeroVelBoid] [default, zeroVelBoid] [0] [] []
        ⟨2, 10, 1⟩ [1, 0] :=
  ⟨List.Perm.swap 1 0 [],
   dispatch_order_independent _ _ _ _ _ _ _ _ _ (List.Perm.swap 1 0 [])⟩

/-- C5: under any random-source state whose draws lie in [0, 1) — the range
of the rand `gen` f32 sampler — every generated agent is the image of six fresh
draws under the affine map `u ↦ (u - 1/2) * 5`: each of the six position and
velocity coordinates lies in [-2.5, 2.5) ⊆ [-2.5, 2.5], the position w is
the literal 1.0 and the velocity w the literal 0.0
(src/boids.rs lines 92-107). -/
theorem gen_boid_coordinate_ranges (rng : ℕ → ℚ)
    (hr : ∀ k, 0 ≤ rng k ∧ rng k < 1) (n i : ℕ) (hi : i < n) :
    (genBoids rng n).getD i default = genBoid rng (6 * i)
    ∧ (genBoid rng (6 * i)).pos.w = 1
    ∧ (genBoid rng (6 * i)).vel.w = 0
    ∧ (genBoid rng (6 * i)).pos.x = genCoord (rng (6 * i))
    ∧ (genBoid rng (6 * i)).pos.y = genCoord (rng (6 * i + 1))
    ∧ (genBoid rng (6 * i)).pos.z = genCoord (rng (6 * i + 2))
    ∧ (genBoid rng (6 * i)).vel.x = genCoord (rng (6 * i + 3))
    ∧ (genBoid rng (6 * i)).vel.y = genCoord (rng (6 * i + 4))
    ∧ (genBoid rng (6 * i)).vel.z = genCoord (rng (6 * i + 5))
    ∧ ∀ k, -(5/2) ≤ genCoord (rng k) ∧ genCoord (rng k) < 5/2 := by
  refine ⟨?_, rfl, rfl, rfl, rfl, rfl, rfl, rfl, rfl, fun k => ?_⟩
  · simp [genBoids, List.getD, List.getElem?_map, List.getElem?_range, hi]
  · rcases hr k with ⟨h0, h1⟩
    constructor
    · unfold genCoord; linarith
    · unfold genCoord; linarith

/-- Witness for C5 at a concrete input: the constant stream 1/2 (a valid
`gen::<f32>()` value) with one agent. -/
theorem gen_boid_coordinate_ranges_witness :
    (∀ k : ℕ, 0 ≤ (fun _ : ℕ => (1 : ℚ)/2) k ∧ (fun _ : ℕ => (1 : ℚ)/2) k < 1)
    ∧ (0 : ℕ) < 1
    ∧ (genBoids (fun _ : ℕ => (1 : ℚ)/2) 1).getD 0 default
        = genBoid (fun _ : ℕ => (1 : ℚ)/2) (6 * 0)
    ∧ (genBoid (fun _ : ℕ => (1 : ℚ)/2) (6 * 0)).pos.w = 1
    ∧ (genBoid (fun _ : ℕ => (1 : ℚ)/2) (6 * 0)).vel.w = 0
    ∧ (-(5/2) ≤ genCoord ((fun _ : ℕ => (1 : ℚ)/2) 0)
        ∧ genCoord ((fun _ : ℕ => (1 : ℚ)/2) 0) < 5/2) := by
  have hr : ∀ k : ℕ, 0 ≤ (fun _ : ℕ => (1 : ℚ)/2) k
      ∧ (fun _ : ℕ => (1 : ℚ)/2) k < 1 := fun k => by norm_num
  have h := gen_boid_coordinate_ranges (fun _ : ℕ => (1 : ℚ)/2) hr 1 0
    (by norm_num)
  exact ⟨hr, by norm_num, h.1, h.2.1, h.2.2.1, h.2.2.2.2.2.2.2.2.2 0⟩

/-- C6: `PointCloud::new_sphere` generates exactly `samples` vertices; vertex
i is built from polar angle `acos(1 - 2 i / samples)` and azimuth
`π (1 + sqrt 5) i`, and its xyz part lies at Euclidean distance exactly 1
from the origin in the idealized reals — in particular within the claimed
1e-5 tolerance (src/point_cloud.rs lines 14-46). -/
theorem new_sphere_points_on_unit_sphere (samples i : ℕ) (hi : i < samples) :
    (new_sphere_vertices samples).length = samples
    ∧ (new_sphere_vertices samples).getD i default = spherePointPos samples i
    ∧ spherePhi samples i = Real.arccos (1 - 2 * i / samples)
    ∧ sphereTheta i = Real.pi * (1 + Real.sqrt 5) * i
    ∧ sphereVertexDist (spherePointPos samples i) = 1
    ∧ |sphereVertexDist (spherePointPos samples i) - 1| ≤ 1 / 100000 := by
  have hdist : sphereVertexDist (spherePointPos samples i) = 1 := by
    unfold sphereVertexDist spherePointPos
    have h1 : Real.sin (sphereTheta i) ^ 2 + Real.cos (sphereTheta i) ^ 2 = 1 :=
      Real.sin_sq_add_cos_sq _
    have h2 : Real.sin (spherePhi samples i) ^ 2
        + Real.cos (spherePhi samples i) ^ 2 = 1 :=
      Real.sin_sq_add_cos_sq _
    have hsum : Real.cos (spherePhi samples i) ^ 2
        + (Real.sin (sphereTheta i) * Real.sin (spherePhi samples i)) ^ 2
        + (Real.cos (sphereTheta i) * Real.sin (spherePhi samples i)) ^ 2
        = 1 := by
      linear_combination Real.sin (spherePhi samples i) ^ 2 * h1 + h2
    rw [hsum, Real.sqrt_one]
  refine ⟨by simp [new_sphere_vertices], ?_, rfl, rfl, hdist, ?_⟩
  · simp [new_sphere_vertices, List.getD, List.getElem?_map,
      List.getElem?_range, hi]
  · rw [hdist]; norm_num

/-- Witness for C6 at a concrete input: one sample, index 0. -/
theorem new_sphere_points_on_unit_sphere_witness :
    (0 : ℕ) < 1
    ∧ ((new_sphere_vertices 1).length = 1
        ∧ (new_sphere_vertices 1).getD 0 default = spherePointPos 1 0
        ∧ spherePhi 1 0 = Real.arccos (1 - 2 * 0 / 1)
        ∧ sphereTheta 0 = Real.pi * (1 + Real.sqrt 5) * 0
        ∧ sphereVertexDist (spherePointPos 1 0) = 1
        ∧ |sphereVertexDist (spherePointPos 1 0) - 1| ≤ 1 / 100000) :=
  ⟨by norm_num, by
    have h := new_sphere_points_on_unit_sphere 1 0 (by norm_num)
    simpa using h⟩

/-- C3 (evaluation of the code at the failing input): for a zero-velocity
agent the projector of src/boids.rs lines 116-123 computes
`from_arc(unit_x, normalize(0), None)`; `normalize` divides by the zero
magnitude, giving `0 * inf = NaN` in every component, both `ulps_eq!` guards
of `from_arc` fail on NaN, and the general branch propagates NaN into every
quaternion component.  The result is the all-NaN quaternion, not the identity
rotation the spec requires — the code has no zero-velocity special case. -/
theorem zero_velocity_rotation_is_nan :
    boidInstanceRotation zeroVelBoid
        = ⟨.nan, ⟨.nan, .nan, .nan⟩⟩
    ∧ boidInstanceRotation zeroVelBoid ≠ QuatF.one := by
  have h : boidInstanceRotation zeroVelBoid = ⟨.nan, ⟨.nan, .nan, .nan⟩⟩ := by
    norm_num [boidInstanceRotation, QuatF.from_arc, QuatF.one, QuatF.from_sv,
      QuatF.normalize, QuatF.magnitude2, Vec3F.normalize, Vec3F.magnitude2,
      Vec3F.dot, Vec3F.cross, Vec3F.scale, Vec3F.unitX, toVec3F, zeroVelBoid,
      F32.mul, F32.add, F32.sub, F32.neg, F32.sqrt, F32.div, F32.approxEq,
      ratSqrt_zero]
  refine ⟨h, ?_⟩
  rw [h]
  intro hc
  have hs : F32.nan = F32.num 1 := congrArg QuatF.s hc
  cases hs

/-- C9 counterexample: after one update from a freshly constructed state the
claim would require the per-instance vertex input (slot 1) of
`draw_boids_instanced` to be the post-toggle last-written agent buffer
(`boid_buffer2` here); the recorded command stream instead binds the fixed
`instance_buffer`, so the claimed equation fails at this concrete input. -/
theorem render_binds_agent_write_buffer_cex :
    ¬ (boundVertexBuffer 1
        (draw_boids_instanced
          (Boids.update (Boids.createState 4 6 10 36) 0).2
          (0, (Boids.update (Boids.createState 4 6 10 36) 0).2.num_instances)
          .cameraUniforms)
      = some (lastCompletedAgentBuffer
          (Boids.update (Boids.createState 4 6 10 36) 0).2.boid_buffer_index)) := by
  intro hc
  simp [draw_boids_instanced, boundVertexBuffer, Boids.update,
    Boids.createState, lastCompletedAgentBuffer, writeBufferOfTick] at hc

/-- C9 amended: every boids render submission binds the fixed instance buffer
— the buffer at binding 0 of the compute scene bind group, rewritten in place
by the compute kernel — as the per-instance vertex input at slot 1, together
with the caller-supplied (camera) uniforms as a separate bind group at index 0; the
ping-ponged agent buffers themselves are never referenced by the render
commands (src/boids.rs lines 416-427 and 227-248). -/
theorem render_binds_instance_buffer (s : Boids) (instances : ℕ × ℕ)
    (uniforms : BindGroupId) :
    boundVertexBuffer 1 (draw_boids_instanced s instances uniforms)
        = some .instanceBuf
    ∧ RenderCmd.setBindGroup 0 uniforms ∈ draw_boids_instanced s instances uniforms
    ∧ ((draw_boids_instanced s instances uniforms).all fun c =>
        !(usesBuffer .boidBuf1 c || usesBuffer .boidBuf2 c)) = true
    ∧ (0, BufferId.instanceBuf) ∈ computeSceneBindGroupBuffers :=
  ⟨rfl, by simp [draw_boids_instanced], rfl,
   by simp [computeSceneBindGroupBuffers]⟩

/-- C10: each non-instanced draw helper equals its instanced counterpart
applied to the single-instance range 0..1 (src/boids.rs lines 413-415,
src/point_cloud.rs lines 140-142, src/model.rs lines 154-156). -/
theorem draw_helpers_single_instance (b : Boids) (pc : PointCloud)
    (ib : BufferId) (m : Mesh) (mat : Material) (u : BindGroupId) :
    draw_boids b u = draw_boids_instanced b (0, 1) u
    ∧ draw_point_cloud pc ib u = draw_point_cloud_instanced pc ib (0, 1) u
    ∧ draw_mesh m mat u = draw_mesh_instanced m mat (0, 1) u :=
  ⟨rfl, rfl, rfl⟩

end LearnWgpu
